import Mathlib

/-!
Shallow embedding of the faithconnect backend's engagement/notification
protocol (follows, chats, questions, posts, engagement, notifications).

Each SQLAlchemy table is a list of rows inside a single `DB` record; each
service function from `app/*/services.py` (and the route-level guards it
relies on from `routes.py` / `permissions.py`) is translated to a Lean
function threading the `DB` state explicitly and returning
`Except Err α × DB`: the `Except` models a raised `HTTPException`
(or a runtime error such as `MultipleResultsFound` from
`scalar_one_or_none`, modelled with status 500), and the returned `DB` is
the committed database state at the moment the request ends — so a state
mutated and committed before a later exception is kept, matching the
accepted partial-failure semantics of the code.

Timestamps are modelled as `Nat` and passed explicitly where the code
calls `datetime.now` (the code's naive-vs-aware timezone normalisation in
`create_post` is the identity in this integer time model).
-/

inductive UserRole where
  | worshiper
  | leader
deriving DecidableEq, Repr

/-- Row of the `users` table (fields the protocol reads). -/
structure User where
  id : Nat
  role : UserRole
  name : String
  isActive : Bool
deriving DecidableEq, Repr

/-- Row of the `follows` table: unique (worshiperId, leaderId) pair. -/
structure Follow where
  worshiperId : Nat
  leaderId : Nat
deriving DecidableEq, Repr

/-- Row of the `notifications` table. -/
structure Notification where
  userId : Nat
  ntype : String
  message : String
  referenceType : Option String
  referenceId : Option Nat
  isRead : Bool
deriving DecidableEq, Repr

/-- Row of the `chats` table: one chat per (worshiper, leader) pair. -/
structure Chat where
  id : Nat
  worshiperId : Nat
  leaderId : Nat
deriving DecidableEq, Repr

inductive SenderRole where
  | worshiper
  | leader
deriving DecidableEq, Repr

/-- Row of the `messages` table. -/
structure Message where
  chatId : Nat
  senderId : Nat
  senderRole : SenderRole
  contentText : String
  isRead : Bool
deriving DecidableEq, Repr

/-- Row of the `questions` table. -/
structure Question where
  id : Nat
  worshiperId : Nat
  leaderId : Nat
  questionText : String
  answerText : Option String
  answered : Bool
  createdAt : Nat
  answeredAt : Option Nat
deriving DecidableEq, Repr

/-- Row of the `posts` table (fields the protocol reads). -/
structure Post where
  id : Nat
  leaderId : Nat
  contentText : String
  scheduledAt : Option Nat
  isPublished : Bool
  isActive : Bool
  createdAt : Nat
deriving DecidableEq, Repr

/-- Row of the `post_likes` table: composite key (postId, userId). -/
structure PostLike where
  postId : Nat
  userId : Nat
deriving DecidableEq, Repr

/-- Row of the `post_saves` table: composite key (postId, userId). -/
structure PostSave where
  postId : Nat
  userId : Nat
deriving DecidableEq, Repr

/-- Row of the `comments` table (fields the protocol reads). -/
structure Comment where
  id : Nat
  postId : Nat
  authorId : Nat
  text : String
deriving DecidableEq, Repr

/-- The relational store: one list of rows per table, plus id counters
for entities whose generated primary key the code then references. -/
structure DB where
  users : List User
  follows : List Follow
  chats : List Chat
  messages : List Message
  questions : List Question
  posts : List Post
  postLikes : List PostLike
  postSaves : List PostSave
  comments : List Comment
  notifications : List Notification
  nextChatId : Nat
  nextPostId : Nat
deriving DecidableEq, Repr

/-- An aborted request: a raised `HTTPException` (status code + detail),
with status 500 standing for uncaught runtime errors. -/
structure Err where
  statusCode : Nat
  detail : String
deriving DecidableEq, Repr

/-- `Result.scalar_one_or_none()`: `none` on no row, the row when unique,
and a raised `MultipleResultsFound` (modelled as a 500) otherwise. -/
def scalar_one_or_none {α : Type} (l : List α) : Except Err (Option α) :=
  match l with
  | [] => Except.ok none
  | [a] => Except.ok (some a)
  | _ => Except.error ⟨500, "MultipleResultsFound"⟩

/-- `app/notifications/services.py` `create_notification`: inserts one
notification row, always unread, and returns it. -/
def create_notification (db : DB) (user_id : Nat) (ntype : String)
    (message : String) (reference_type : Option String)
    (reference_id : Option Nat) : Notification × DB :=
  let notification : Notification :=
    ⟨user_id, ntype, message, reference_type, reference_id, false⟩
  (notification, { db with notifications := db.notifications ++ [notification] })

/-- `app/follows/services.py` `get_user_by_id`: first user with this id,
404 when absent (`.first()` on the filtered query). -/
def get_user_by_id (db : DB) (user_id : Nat) : Except Err User :=
  match db.users.find? (fun u => u.id == user_id) with
  | none => Except.error ⟨404, "User not found"⟩
  | some u => Except.ok u

/-- `app/follows/services.py` `validate_leader_exists`: the user must
exist and have role leader. -/
def validate_leader_exists (db : DB) (leader_id : Nat) : Except Err User :=
  match get_user_by_id db leader_id with
  | Except.error e => Except.error e
  | Except.ok u =>
      if u.role ≠ UserRole.leader then
        Except.error ⟨400, "User is not a leader"⟩
      else
        Except.ok u

/-- `app/follows/services.py` `follow_leader`: validates leader and
worshiper, rejects self-follow, is idempotent on an existing edge, and on
first creation inserts the edge then a `new_follower` notification. -/
def follow_leader (db : DB) (worshiper_id leader_id : Nat) :
    Except Err Follow × DB :=
  match validate_leader_exists db leader_id with
  | Except.error e => (Except.error e, db)
  | Except.ok _leader =>
    match get_user_by_id db worshiper_id with
    | Except.error e => (Except.error e, db)
    | Except.ok worshiper =>
      if worshiper_id == leader_id then
        (Except.error ⟨400, "Cannot follow yourself"⟩, db)
      else
        match db.follows.find?
            (fun f => f.worshiperId == worshiper_id && f.leaderId == leader_id) with
        | some existing_follow => (Except.ok existing_follow, db)
        | none =>
          let new_follow : Follow := ⟨worshiper_id, leader_id⟩
          let db1 := { db with follows := db.follows ++ [new_follow] }
          let db2 := (create_notification db1 leader_id "new_follower"
            (worshiper.name ++ " started following you") none none).2
          (Except.ok new_follow, db2)

/-- `app/follows/services.py` `unfollow_leader`: idempotent removal,
always reports success, no notification. -/
def unfollow_leader (db : DB) (worshiper_id leader_id : Nat) : Bool × DB :=
  match db.follows.find?
      (fun f => f.worshiperId == worshiper_id && f.leaderId == leader_id) with
  | some follow => (true, { db with follows := db.follows.erase follow })
  | none => (true, db)

/-- `app/chats/permissions.py` `verify_follow_exists`: 403 unless a
follow edge from the worshiper to the leader exists. -/
def verify_follow_exists (db : DB) (worshiper_id leader_id : Nat) :
    Except Err Unit :=
  match scalar_one_or_none (db.follows.filter
      (fun f => f.worshiperId == worshiper_id && f.leaderId == leader_id)) with
  | Except.error e => Except.error e
  | Except.ok none =>
      Except.error ⟨403, "You must follow this leader to send messages"⟩
  | Except.ok (some _) => Except.ok ()

/-- `app/chats/services.py` `get_or_create_chat`: lookup-or-insert on the
unique (worshiperId, leaderId) pair. -/
def get_or_create_chat (db : DB) (worshiper_id leader_id : Nat) :
    Except Err Chat × DB :=
  match scalar_one_or_none (db.chats.filter
      (fun c => c.worshiperId == worshiper_id && c.leaderId == leader_id)) with
  | Except.error e => (Except.error e, db)
  | Except.ok (some chat) => (Except.ok chat, db)
  | Except.ok none =>
      let chat : Chat := ⟨db.nextChatId, worshiper_id, leader_id⟩
      (Except.ok chat,
        { db with chats := db.chats ++ [chat], nextChatId := db.nextChatId + 1 })

/-- `app/chats/services.py` `send_message`: appends an unread message,
then notifies the other participant; the unguarded `sender.name` access
on a missing sender row is the modelled 500 (the message row, already
committed, is kept in that case). -/
def send_message (db : DB) (chat : Chat) (sender_id : Nat)
    (sender_role : UserRole) (content_text : String) :
    Except Err Message × DB :=
  let sender_role_value :=
    if sender_role == UserRole.worshiper then SenderRole.worshiper
    else SenderRole.leader
  let message : Message := ⟨chat.id, sender_id, sender_role_value, content_text, false⟩
  let db1 := { db with messages := db.messages ++ [message] }
  match db1.users.find? (fun u => u.id == sender_id) with
  | none => (Except.error ⟨500, "AttributeError"⟩, db1)
  | some sender =>
      let recipient_id :=
        if sender_id == chat.worshiperId then chat.leaderId else chat.worshiperId
      let db2 := (create_notification db1 recipient_id "new_message"
        (sender.name ++ " sent you a message") (some "chat") (some chat.id)).2
      (Except.ok message, db2)

/-- `app/chats/routes.py` `send_first_message_to_leader`
(`POST /leaders/{leader_id}/messages`): worshiper-only, follow-gated,
then get-or-create chat and send the message. -/
def send_first_message_to_leader (db : DB) (current_user : User)
    (leader_id : Nat) (content_text : String) : Except Err Message × DB :=
  if current_user.role ≠ UserRole.worshiper then
    (Except.error ⟨403, "Only worshipers can initiate conversations with leaders"⟩, db)
  else
    match verify_follow_exists db current_user.id leader_id with
    | Except.error e => (Except.error e, db)
    | Except.ok _ =>
      match get_or_create_chat db current_user.id leader_id with
      | (Except.error e, db1) => (Except.error e, db1)
      | (Except.ok chat, db1) =>
          send_message db1 chat current_user.id current_user.role content_text

/-- The WHERE clause of `mark_messages_as_read`: in this chat, sent by
someone else, currently unread. -/
def unreadFromOther (chat_id user_id : Nat) (m : Message) : Bool :=
  m.chatId == chat_id && m.senderId != user_id && m.isRead == false

/-- The SET clause of `mark_messages_as_read` applied to one row:
`is_read = true` on a row matching the WHERE clause, unchanged otherwise. -/
def applyMarkRead (chat_id user_id : Nat) (m : Message) : Message :=
  if unreadFromOther chat_id user_id m then { m with isRead := true } else m

/-- `app/chats/services.py` `mark_messages_as_read`: one bulk UPDATE
setting `is_read = true` on every message matching the WHERE clause,
returning the rowcount. -/
def mark_messages_as_read (db : DB) (chat_id user_id : Nat) : Nat × DB :=
  let affected := db.messages.countP (unreadFromOther chat_id user_id)
  let msgs := db.messages.map (applyMarkRead chat_id user_id)
  (affected, { db with messages := msgs })

/-- `app/questions/services.py` `get_leader_questions`: one query for the
leader's questions ordered newest-first, then an in-memory split into
pending and answered. -/
def get_leader_questions (db : DB) (leader_id : Nat) :
    List Question × List Question :=
  let all_questions :=
    (db.questions.filter (fun q => q.leaderId == leader_id)).insertionSort
      (fun a b => b.createdAt ≤ a.createdAt)
  (all_questions.filter (fun q => !q.answered),
   all_questions.filter (fun q => q.answered))

/-- `app/questions/services.py` `answer_question`: overwrites the
question's answer fields (no already-answered guard), commits, then
notifies the worshiper (the unguarded `leader.name` access on a missing
leader row is the modelled 500; the answer, already committed, is kept).
The question object, verified by `verify_leader_owns_question` at the
route, is identified here by its primary key. -/
def answer_question (db : DB) (question_id : Nat) (answer_text : String)
    (now : Nat) : Except Err Question × DB :=
  match db.questions.find? (fun q => q.id == question_id) with
  | none => (Except.error ⟨404, "Question not found"⟩, db)
  | some question =>
    let updated : Question := { question with
      answerText := some answer_text, answered := true, answeredAt := some now }
    let db1 : DB := { db with questions := db.questions.map (fun q =>
      if q.id == question_id then updated else q) }
    match db1.users.find? (fun u => u.id == question.leaderId) with
    | none => (Except.error ⟨500, "AttributeError"⟩, db1)
    | some leader =>
        let db2 := (create_notification db1 question.worshiperId
          "question_answered" (leader.name ++ " answered your question")
          (some "question") (some question.id)).2
        (Except.ok updated, db2)

/-- Request body of `POST /posts` (`CreatePostRequest`), with the tag,
intent and media fields carried opaquely (their enum conversion is
validated upstream by the Pydantic schema). -/
structure CreatePostRequest where
  contentText : String
  scheduledAt : Option Nat
deriving DecidableEq, Repr

/-- The follower query of `create_post`: all Follow rows whose leader is
the authoring leader. -/
def get_followers_of (db : DB) (leader_id : Nat) : List Follow :=
  db.follows.filter (fun f => f.leaderId == leader_id)

/-- The `new_post` notification row `create_post` writes for one
follower. -/
def new_post_notification (leader_name : String) (post_id : Nat)
    (f : Follow) : Notification :=
  ⟨f.worshiperId, "new_post", leader_name ++ " shared new spiritual content",
   some "post", some post_id, false⟩

/-- The fan-out loop of `create_post`: one `create_notification` call per
follower, in list order. -/
def notify_followers (db : DB) (followers : List Follow)
    (leader_name : String) (post_id : Nat) : DB :=
  followers.foldl (fun acc f =>
    (create_notification acc f.worshiperId "new_post"
      (leader_name ++ " shared new spiritual content")
      (some "post") (some post_id)).2) db

/-- `app/posts/services.py` `create_post`: publishes immediately unless
`scheduled_at` is strictly in the future; inserts the post, then, only
when published, notifies every follower (the unguarded `leader.name`
access on a missing leader row is the modelled 500; the post, already
committed, is kept). -/
def create_post (db : DB) (leader_id : Nat) (post_data : CreatePostRequest)
    (now : Nat) : Except Err Post × DB :=
  let should_publish :=
    match post_data.scheduledAt with
    | some scheduled_time => !(decide (now < scheduled_time))
    | none => true
  let new_post : Post :=
    ⟨db.nextPostId, leader_id, post_data.contentText, post_data.scheduledAt,
     should_publish, true, now⟩
  let db1 : DB := { db with
    posts := db.posts ++ [new_post], nextPostId := db.nextPostId + 1 }
  if should_publish then
    match db1.users.find? (fun u => u.id == leader_id) with
    | none => (Except.error ⟨500, "AttributeError"⟩, db1)
    | some leader =>
        (Except.ok new_post,
         notify_followers db1 (get_followers_of db1 leader_id) leader.name
           new_post.id)
  else
    (Except.ok new_post, db1)

/-- The row filter of the explore-feed query: active published post whose
authoring leader (joined on primary key) is active. -/
def explorePostFilter (db : DB) (p : Post) : Bool :=
  p.isActive && p.isPublished &&
    (match db.users.find? (fun u => u.id == p.leaderId) with
     | some u => u.isActive
     | none => false)

/-- `app/feed/services.py` `get_explore_feed`, reduced to the posts it
returns: active published posts of active leaders, newest first, with
`page_size` clamped to 50 and offset `(page - 1) * page_size` (the
response assembly — leader info, engagement stats, metadata labels —
annotates each returned post and does not change membership). -/
def get_explore_feed (db : DB) (page page_size : Nat) : List Post :=
  let ps := min page_size 50
  let off := (page - 1) * ps
  let rows := db.posts.filter (explorePostFilter db)
  let sorted := rows.insertionSort (fun a b => b.createdAt ≤ a.createdAt)
  (sorted.drop off).take ps

/-- The row filter for one user's like of one post. -/
def likeRowFilter (post_id user_id : Nat) (pl : PostLike) : Bool :=
  pl.postId == post_id && pl.userId == user_id

/-- `app/engagement/services.py` `like_post`: idempotent like; inserts
only when no row exists for the pair. -/
def like_post (db : DB) (post_id user_id : Nat) : Except Err String × DB :=
  match scalar_one_or_none (db.postLikes.filter (likeRowFilter post_id user_id)) with
  | Except.error e => (Except.error e, db)
  | Except.ok (some _) => (Except.ok "Post already liked", db)
  | Except.ok none =>
      let new_like : PostLike := ⟨post_id, user_id⟩
      (Except.ok "Post liked", { db with postLikes := db.postLikes ++ [new_like] })

/-- `app/engagement/services.py` `unlike_post`: idempotent unlike;
deletes the row when present, no-op otherwise. -/
def unlike_post (db : DB) (post_id user_id : Nat) : Except Err String × DB :=
  match scalar_one_or_none (db.postLikes.filter (likeRowFilter post_id user_id)) with
  | Except.error e => (Except.error e, db)
  | Except.ok none => (Except.ok "Post not liked", db)
  | Except.ok (some existing_like) =>
      (Except.ok "Post unliked",
       { db with postLikes := db.postLikes.erase existing_like })

/-- Return value of `get_post_engagement_stats`. -/
structure EngagementStats where
  likesCount : Nat
  commentsCount : Nat
  isLiked : Bool
  isSaved : Bool
deriving DecidableEq, Repr

/-- `app/engagement/services.py` `get_post_engagement_stats`: recomputed
aggregate counts, plus per-viewer booleans when a viewer is supplied. -/
def get_post_engagement_stats (db : DB) (post_id : Nat)
    (user_id : Option Nat) : Except Err EngagementStats :=
  let likes_count := db.postLikes.countP (fun pl => pl.postId == post_id)
  let comments_count := db.comments.countP (fun c => c.postId == post_id)
  match user_id with
  | none => Except.ok ⟨likes_count, comments_count, false, false⟩
  | some uid =>
    match scalar_one_or_none (db.postLikes.filter (likeRowFilter post_id uid)) with
    | Except.error e => Except.error e
    | Except.ok like_row =>
      match scalar_one_or_none (db.postSaves.filter
          (fun ps => ps.postId == post_id && ps.userId == uid)) with
      | Except.error e => Except.error e
      | Except.ok save_row =>
          Except.ok ⟨likes_count, comments_count, like_row.isSome, save_row.isSome⟩

/-- A database with no rows, for concrete test states. -/
def emptyDB : DB := ⟨[], [], [], [], [], [], [], [], [], [], 0, 0⟩

/-- Test fixture: a leader user. -/
def leaderL : User := ⟨2, UserRole.leader, "L", true⟩

/-- Test fixture: a worshiper user. -/
def worshiperW : User := ⟨1, UserRole.worshiper, "W", true⟩

/-- Test fixture: a store holding one worshiper and one leader. -/
def dbWL : DB := { emptyDB with users := [worshiperW, leaderL] }

/-- Test fixture: a store whose only user is a leader with id 1. -/
def dbSelfLeader : DB := { emptyDB with users := [⟨1, UserRole.leader, "L", true⟩] }

/-- Test fixture: a store where user 1 already likes post 1. -/
def dbLiked : DB := { emptyDB with postLikes := [⟨1, 1⟩] }

/-- Test fixture: chat 1 with one unread message from each participant. -/
def dbMsgs : DB := { emptyDB with
  chats := [⟨1, 1, 2⟩],
  messages := [⟨1, 1, SenderRole.worshiper, "hi", false⟩,
               ⟨1, 2, SenderRole.leader, "yo", false⟩] }

/-- Test fixture: one pending question from worshiper 1 to leader 2. -/
def dbQ : DB := { emptyDB with
  users := [worshiperW, leaderL],
  questions := [⟨7, 1, 2, "why?", none, false, 3, none⟩] }

/-- Test fixture: worshiper 1 follows leader 2. -/
def dbF : DB := { emptyDB with
  users := [worshiperW, leaderL], follows := [⟨1, 2⟩] }

/-- Test fixture: `dbWL` after worshiper 1 first follows leader 2. -/
def dbWL1 : DB := { emptyDB with
  users := [worshiperW, leaderL],
  follows := [⟨1, 2⟩],
  notifications := [⟨2, "new_follower", "W started following you", none, none, false⟩] }

/-- Number of Follow rows for one (worshiper, leader) pair. -/
def countFollowRows (db : DB) (w l : Nat) : Nat :=
  db.follows.countP (fun f => f.worshiperId == w && f.leaderId == l)

/-- Number of `new_follower` notification rows for one leader. -/
def countNewFollowerNotifs (db : DB) (l : Nat) : Nat :=
  db.notifications.countP (fun n => n.ntype == "new_follower" && n.userId == l)

/-- Number of `question_answered` notification rows for one worshiper. -/
def countQuestionAnsweredNotifs (db : DB) (uid : Nat) : Nat :=
  db.notifications.countP
    (fun n => n.ntype == "question_answered" && n.userId == uid)

deriving instance DecidableEq for Except

instance : IsTotal Question (fun a b => b.createdAt ≤ a.createdAt) :=
  ⟨fun a b => Nat.le_total b.createdAt a.createdAt⟩

instance : IsTrans Question (fun a b => b.createdAt ≤ a.createdAt) :=
  ⟨fun _ _ _ hab hbc => Nat.le_trans hbc hab⟩

/-- A `get_user_by_id` failure is always the 404. -/
theorem get_user_by_id_error {db : DB} {i : Nat} {e : Err}
    (h : get_user_by_id db i = Except.error e) : e = ⟨404, "User not found"⟩ := by
  unfold get_user_by_id at h
  cases hf : db.users.find? (fun u => u.id == i) <;> rw [hf] at h <;> simp_all

/-- A `validate_leader_exists` failure is the 404 or the 400. -/
theorem validate_leader_error_status {db : DB} {l : Nat} {e : Err}
    (h : validate_leader_exists db l = Except.error e) :
    e.statusCode = 404 ∨ e.statusCode = 400 := by
  unfold validate_leader_exists at h
  cases hg : get_user_by_id db l with
  | error e' =>
      rw [hg] at h
      simp only [Except.error.injEq] at h
      subst h
      exact Or.inl (by rw [get_user_by_id_error hg])
  | ok u =>
      rw [hg] at h
      by_cases hr : u.role = UserRole.leader
      · simp [hr] at h
      · simp only [ne_eq, hr, not_false_eq_true, if_true, Except.error.injEq] at h
        subst h
        exact Or.inr rfl

/-- A `validate_leader_exists` success returns the user found by id, and
that user has role leader. -/
theorem validate_leader_exists_ok {db : DB} {l : Nat} {u : User}
    (h : validate_leader_exists db l = Except.ok u) :
    get_user_by_id db l = Except.ok u ∧ u.role = UserRole.leader := by
  unfold validate_leader_exists at h
  cases hg : get_user_by_id db l with
  | error e' => rw [hg] at h; simp at h
  | ok u' =>
      rw [hg] at h
      dsimp only at h
      by_cases hr : u'.role = UserRole.leader
      · rw [if_neg (by simp [hr])] at h
        injection h with h'
        subst h'
        exact ⟨rfl, hr⟩
      · simp [hr] at h

/-- Claim C1 counterexample: with user 1 registered as a leader, a request
to follow oneself IS rejected by validation — `follow_leader db 1 1`
aborts with the explicit 400 "Cannot follow yourself" guard and changes
nothing, refuting the claim that no self-follow validation guard exists. -/
theorem follow_self_rejected_concretely :
    follow_leader dbSelfLeader 1 1 =
      (Except.error ⟨400, "Cannot follow yourself"⟩, dbSelfLeader) := by
  rfl

/-- Claim C1 (amended): `follow_leader` always rejects a self-follow by
validation — for every store state, `follow(w, w)` aborts with a 404 (user
absent) or a 400 (not a leader, or the explicit "Cannot follow yourself"
guard at `app/follows/services.py` lines 79-83) and leaves the store
unchanged. -/
theorem follow_self_always_rejected (db : DB) (w : Nat) :
    (follow_leader db w w).2 = db ∧
    ∃ e, (follow_leader db w w).1 = Except.error e ∧
      (e.statusCode = 404 ∨ e.statusCode = 400) := by
  unfold follow_leader
  cases hv : validate_leader_exists db w with
  | error e =>
      exact ⟨rfl, e, rfl, validate_leader_error_status hv⟩
  | ok u =>
      obtain ⟨hg, -⟩ := validate_leader_exists_ok hv
      rw [hg]
      dsimp only
      rw [if_pos (beq_self_eq_true w)]
      exact ⟨rfl, ⟨400, "Cannot follow yourself"⟩, rfl, Or.inr rfl⟩

/-- `validate_leader_exists` reads only the users table. -/
theorem validate_leader_exists_users_eq {db db' : DB} (h : db'.users = db.users)
    (l : Nat) : validate_leader_exists db' l = validate_leader_exists db l := by
  unfold validate_leader_exists get_user_by_id
  rw [h]

/-- `get_user_by_id` reads only the users table. -/
theorem get_user_by_id_users_eq {db db' : DB} (h : db'.users = db.users)
    (i : Nat) : get_user_by_id db' i = get_user_by_id db i := by
  unfold get_user_by_id
  rw [h]

/-- Claim C2: follow is idempotent. After a successful `follow_leader`,
repeating the call returns the same edge and leaves the store unchanged
(no duplicate row, no error, no new notification); exactly one Follow row
for the pair exists, and at most one `new_follower` notification was added
to the leader's baseline. The unique-pair hypothesis mirrors the table's
unique (worshiperId, leaderId) constraint. -/
theorem follow_twice_idempotent (db : DB) (w l : Nat) (f1 : Follow) (db1 : DB)
    (h : follow_leader db w l = (Except.ok f1, db1))
    (hinv : countFollowRows db w l ≤ 1) :
    follow_leader db1 w l = (Except.ok f1, db1) ∧
    countFollowRows db1 w l = 1 ∧
    countNewFollowerNotifs db1 l ≤ countNewFollowerNotifs db l + 1 := by
  unfold follow_leader at h
  cases hv : validate_leader_exists db l with
  | error e => rw [hv] at h; exact absurd h (by simp)
  | ok u =>
    rw [hv] at h
    dsimp only at h
    cases hg : get_user_by_id db w with
    | error e => rw [hg] at h; dsimp only at h; exact absurd h (by simp)
    | ok worshiper =>
      rw [hg] at h
      dsimp only at h
      by_cases hwl : (w == l) = true
      · rw [if_pos hwl] at h; exact absurd h (by simp)
      · rw [if_neg hwl] at h
        cases hf : db.follows.find?
            (fun f => f.worshiperId == w && f.leaderId == l) with
        | some existing =>
            rw [hf] at h
            dsimp only at h
            injection h with h1 h2
            injection h1 with h1'
            subst h1'
            subst h2
            refine ⟨?_, ?_, Nat.le_succ _⟩
            · unfold follow_leader
              rw [hv]
              dsimp only
              rw [hg]
              dsimp only
              rw [if_neg hwl, hf]
            · have hmem := List.mem_of_find?_eq_some hf
              have hp := List.find?_some hf
              unfold countFollowRows at hinv ⊢
              have hpos : 0 < db.follows.countP
                  (fun f => f.worshiperId == w && f.leaderId == l) :=
                List.countP_pos_iff.mpr ⟨existing, hmem, hp⟩
              omega
        | none =>
            rw [hf] at h
            dsimp only at h
            injection h with h1 h2
            injection h1 with h1'
            subst h1'
            have husers : db1.users = db.users := by rw [← h2]; rfl
            have hfollows : db1.follows =
                db.follows ++ [({ worshiperId := w, leaderId := l } : Follow)] := by
              rw [← h2]; rfl
            have hnotifs : db1.notifications = db.notifications ++
                [({ userId := l, ntype := "new_follower",
                    message := worshiper.name ++ " started following you",
                    referenceType := none, referenceId := none,
                    isRead := false } : Notification)] := by
              rw [← h2]; rfl
            have hzero : db.follows.countP
                (fun f => f.worshiperId == w && f.leaderId == l) = 0 :=
              List.countP_eq_zero.mpr (List.find?_eq_none.mp hf)
            refine ⟨?_, ?_, ?_⟩
            · unfold follow_leader
              rw [validate_leader_exists_users_eq husers l, hv]
              dsimp only
              rw [get_user_by_id_users_eq husers w, hg]
              dsimp only
              rw [if_neg hwl]
              rw [hfollows, List.find?_append, hf]
              simp
            · unfold countFollowRows
              rw [hfollows, List.countP_append, hzero]
              simp
            · unfold countNewFollowerNotifs
              rw [hnotifs, List.countP_append]
              simp

/-- Claim C2 witness: the idempotence theorem applied at a concrete store
(worshiper 1, leader 2, first follow already performed). -/
theorem follow_twice_idempotent_witness :
    (follow_leader dbWL 1 2 = (Except.ok ⟨1, 2⟩, dbWL1) ∧
     countFollowRows dbWL 1 2 ≤ 1) ∧
    (follow_leader dbWL1 1 2 = (Except.ok ⟨1, 2⟩, dbWL1) ∧
     countFollowRows dbWL1 1 2 = 1 ∧
     countNewFollowerNotifs dbWL1 2 ≤ countNewFollowerNotifs dbWL 2 + 1) :=
  ⟨⟨by decide, by decide⟩,
   follow_twice_idempotent dbWL 1 2 ⟨1, 2⟩ dbWL1 (by decide) (by decide)⟩

/-- Claim C3: `POST /leaders/{leader_id}/messages` is rejected with a 403
and leaves the store untouched (no Chat row, no Message row) whenever the
caller is not a worshiper or no Follow edge from the caller to that
leader exists. -/
theorem send_first_message_forbidden (db : DB) (current_user : User)
    (leader_id : Nat) (content_text : String)
    (h : current_user.role ≠ UserRole.worshiper ∨
      ∀ f ∈ db.follows,
        ¬(f.worshiperId = current_user.id ∧ f.leaderId = leader_id)) :
    ∃ e, send_first_message_to_leader db current_user leader_id content_text
        = (Except.error e, db) ∧ e.statusCode = 403 := by
  unfold send_first_message_to_leader
  by_cases hrole : current_user.role = UserRole.worshiper
  · have hfol : ∀ f ∈ db.follows,
        ¬(f.worshiperId = current_user.id ∧ f.leaderId = leader_id) := by
      cases h with
      | inl hr => exact absurd hrole hr
      | inr hf => exact hf
    rw [if_neg (by simp [hrole])]
    have hfilter : db.follows.filter
        (fun f => f.worshiperId == current_user.id && f.leaderId == leader_id)
        = [] := by
      rw [List.filter_eq_nil_iff]
      intro f hfmem
      have := hfol f hfmem
      simp only [Bool.and_eq_true, beq_iff_eq]
      intro hc
      exact this hc
    have hverify : verify_follow_exists db current_user.id leader_id =
        Except.error ⟨403, "You must follow this leader to send messages"⟩ := by
      unfold verify_follow_exists
      rw [hfilter]
      rfl
    rw [hverify]
    exact ⟨⟨403, "You must follow this leader to send messages"⟩, rfl, rfl⟩
  · rw [if_pos (by simp [hrole])]
    exact ⟨⟨403, "Only worshipers can initiate conversations with leaders"⟩,
      rfl, rfl⟩

/-- Claim C3 witness: a leader (not a worshiper) attempting to cold-open
a chat is rejected with a 403 and no state change. -/
theorem send_first_message_forbidden_witness :
    (leaderL.role ≠ UserRole.worshiper) ∧
    ∃ e, send_first_message_to_leader dbWL leaderL 2 "Hello"
        = (Except.error e, dbWL) ∧ e.statusCode = 403 :=
  ⟨by decide,
   send_first_message_forbidden dbWL leaderL 2 "Hello" (Or.inl (by decide))⟩

/-- A message never matches the mark-read WHERE clause again after the
update has been applied to it. -/
theorem unreadFromOther_applyMarkRead (c u : Nat) (m : Message) :
    unreadFromOther c u (applyMarkRead c u m) = false := by
  unfold applyMarkRead
  by_cases hc : unreadFromOther c u m = true
  · rw [if_pos hc]
    unfold unreadFromOther
    simp
  · rw [if_neg hc]
    simpa using hc

/-- Claim C4: for every chat and caller, `mark_messages_as_read` flips
`isRead` on exactly the messages of that chat sent by someone else that
were previously unread — the caller's own messages, already-read
messages, and other chats' messages are untouched — returns the number
of rows affected, and a second invocation affects zero rows and succeeds
with the store unchanged. -/
theorem mark_chat_read_spec (db : DB) (c u : Nat) (i : Nat) (m m' : Message)
    (hm : db.messages.get? i = some m)
    (hm' : (mark_messages_as_read db c u).2.messages.get? i = some m') :
    (m.senderId = u → m' = m) ∧
    (m.isRead = true → m' = m) ∧
    (m.chatId ≠ c → m' = m) ∧
    (m.chatId = c → m.senderId ≠ u → m.isRead = false →
      m' = { m with isRead := true }) ∧
    (mark_messages_as_read db c u).1
      = db.messages.countP (unreadFromOther c u) ∧
    mark_messages_as_read (mark_messages_as_read db c u).2 c u
      = (0, (mark_messages_as_read db c u).2) := by
  have hmsgs : (mark_messages_as_read db c u).2.messages
      = db.messages.map (applyMarkRead c u) := rfl
  rw [hmsgs, List.get?_map, hm] at hm'
  simp only [Option.map_some'] at hm'
  have hm'' : m' = applyMarkRead c u m := (Option.some.inj hm').symm
  refine ⟨?_, ?_, ?_, ?_, rfl, ?_⟩
  · intro hs
    rw [hm'']
    unfold applyMarkRead
    rw [if_neg (by simp [unreadFromOther, hs])]
  · intro hr
    rw [hm'']
    unfold applyMarkRead
    rw [if_neg (by simp [unreadFromOther, hr])]
  · intro hcid
    rw [hm'']
    unfold applyMarkRead
    rw [if_neg (by simp [unreadFromOther, hcid])]
  · intro h1 h2 h3
    rw [hm'']
    unfold applyMarkRead
    rw [if_pos (by simp [unreadFromOther, h1, h2, h3])]
  · have hcount : (mark_messages_as_read db c u).2.messages.countP
        (unreadFromOther c u) = 0 := by
      rw [hmsgs, List.countP_eq_zero]
      intro x hx
      obtain ⟨y, _, rfl⟩ := List.mem_map.mp hx
      simp [unreadFromOther_applyMarkRead]
    have hfix : (mark_messages_as_read db c u).2.messages.map
        (applyMarkRead c u) = (mark_messages_as_read db c u).2.messages := by
      rw [hmsgs, List.map_map]
      refine List.map_congr_left ?_
      intro a _
      show applyMarkRead c u (applyMarkRead c u a) = applyMarkRead c u a
      conv_lhs => rw [applyMarkRead]
      rw [unreadFromOther_applyMarkRead]
      simp
    show ((mark_messages_as_read db c u).2.messages.countP (unreadFromOther c u),
        ({ (mark_messages_as_read db c u).2 with
          messages := (mark_messages_as_read db c u).2.messages.map
            (applyMarkRead c u) } : DB))
      = (0, (mark_messages_as_read db c u).2)
    rw [hcount, hfix]

/-- Claim C4 witness: the mark-read theorem applied at a concrete chat
where the caller (user 1) has one unread message from user 2. -/
theorem mark_chat_read_spec_witness :
    (dbMsgs.messages.get? 1 = some ⟨1, 2, SenderRole.leader, "yo", false⟩ ∧
     (mark_messages_as_read dbMsgs 1 1).2.messages.get? 1
       = some ⟨1, 2, SenderRole.leader, "yo", true⟩) ∧
    (((⟨1, 2, SenderRole.leader, "yo", false⟩ : Message).senderId = 1 →
        (⟨1, 2, SenderRole.leader, "yo", true⟩ : Message)
          = ⟨1, 2, SenderRole.leader, "yo", false⟩) ∧
     ((⟨1, 2, SenderRole.leader, "yo", false⟩ : Message).isRead = true →
        (⟨1, 2, SenderRole.leader, "yo", true⟩ : Message)
          = ⟨1, 2, SenderRole.leader, "yo", false⟩) ∧
     ((⟨1, 2, SenderRole.leader, "yo", false⟩ : Message).chatId ≠ 1 →
        (⟨1, 2, SenderRole.leader, "yo", true⟩ : Message)
          = ⟨1, 2, SenderRole.leader, "yo", false⟩) ∧
     ((⟨1, 2, SenderRole.leader, "yo", false⟩ : Message).chatId = 1 →
      (⟨1, 2, SenderRole.leader, "yo", false⟩ : Message).senderId ≠ 1 →
      (⟨1, 2, SenderRole.leader, "yo", false⟩ : Message).isRead = false →
        (⟨1, 2, SenderRole.leader, "yo", true⟩ : Message)
          = { (⟨1, 2, SenderRole.leader, "yo", false⟩ : Message) with
              isRead := true }) ∧
     (mark_messages_as_read dbMsgs 1 1).1
       = dbMsgs.messages.countP (unreadFromOther 1 1) ∧
     mark_messages_as_read (mark_messages_as_read dbMsgs 1 1).2 1 1
       = (0, (mark_messages_as_read dbMsgs 1 1).2)) :=
  ⟨⟨rfl, rfl⟩, mark_chat_read_spec dbMsgs 1 1 1
    ⟨1, 2, SenderRole.leader, "yo", false⟩
    ⟨1, 2, SenderRole.leader, "yo", true⟩ rfl rfl⟩

/-- Updating by primary key the row that `find?` located makes `find?`
return the updated row. -/
theorem find?_update_found {l : List Question} {qid : Nat} {q upd : Question}
    (hfind : l.find? (fun x => x.id == qid) = some q) (hid : upd.id = q.id) :
    (l.map (fun x => if x.id == qid then upd else x)).find?
      (fun x => x.id == qid) = some upd := by
  induction l with
  | nil => simp at hfind
  | cons a t ih =>
      by_cases ha : (a.id == qid) = true
      · rw [@List.find?_cons_of_pos _ (fun x => x.id == qid) a t ha] at hfind
        injection hfind with h'
        subst h'
        simp only [List.map_cons, if_pos ha]
        exact List.find?_cons_of_pos _
          (by rw [show upd.id = a.id from hid]; exact ha)
      · rw [@List.find?_cons_of_neg _ (fun x => x.id == qid) a t ha] at hfind
        simp only [List.map_cons, if_neg ha]
        rw [@List.find?_cons_of_neg _ (fun x => x.id == qid) a
          (t.map (fun x => if x.id == qid then upd else x)) ha]
        exact ih hfind

/-- Full evaluation of one successful `answer_question` call: the answer
fields are overwritten on the stored row and one `question_answered`
notification is appended for the worshiper. -/
theorem answer_question_eq (db : DB) (qid : Nat) (t : String) (now : Nat)
    (q : Question) (ld : User)
    (hq : db.questions.find? (fun x => x.id == qid) = some q)
    (hl : db.users.find? (fun u => u.id == q.leaderId) = some ld) :
    answer_question db qid t now =
      (Except.ok { q with answerText := some t, answered := true,
                          answeredAt := some now },
       { db with
         questions := db.questions.map (fun x => if x.id == qid then
           { q with answerText := some t, answered := true,
                    answeredAt := some now } else x),
         notifications := db.notifications ++
           [⟨q.worshiperId, "question_answered",
             ld.name ++ " answered your question",
             some "question", some q.id, false⟩] }) := by
  unfold answer_question
  rw [hq]
  dsimp only
  rw [hl]
  rfl

/-- Claim C5: `answer_question` has no already-answered guard — calling
it twice on the same question with different texts is not rejected; both
calls succeed and the second silently overwrites, so the stored row ends
with the second answer text, answered = true, and answeredAt equal to the
second call's time. -/
theorem answer_question_overwrites (db : DB) (qid : Nat) (t1 t2 : String)
    (n1 n2 : Nat) (q : Question) (ld : User)
    (hq : db.questions.find? (fun x => x.id == qid) = some q)
    (hl : db.users.find? (fun u => u.id == q.leaderId) = some ld) :
    ∃ q1 db1 q2 db2,
      answer_question db qid t1 n1 = (Except.ok q1, db1) ∧
      answer_question db1 qid t2 n2 = (Except.ok q2, db2) ∧
      q2.answerText = some t2 ∧ q2.answered = true ∧ q2.answeredAt = some n2 ∧
      q2.id = q.id ∧ q2.questionText = q.questionText ∧
      db2.questions.find? (fun x => x.id == qid) = some q2 := by
  have e1 := answer_question_eq db qid t1 n1 q ld hq hl
  let q1 : Question := { q with answerText := some t1, answered := true,
                                answeredAt := some n1 }
  let db1 : DB := { db with
    questions := db.questions.map (fun x => if x.id == qid then q1 else x),
    notifications := db.notifications ++
      [⟨q.worshiperId, "question_answered",
        ld.name ++ " answered your question",
        some "question", some q.id, false⟩] }
  have hq1 : db1.questions.find? (fun x => x.id == qid) = some q1 :=
    find?_update_found hq rfl
  have hl1 : db1.users.find? (fun u => u.id == q1.leaderId) = some ld := hl
  have e2 := answer_question_eq db1 qid t2 n2 q1 ld hq1 hl1
  refine ⟨q1, db1, { q1 with answerText := some t2, answered := true,
                             answeredAt := some n2 }, _,
    e1, e2, rfl, rfl, rfl, rfl, rfl, ?_⟩
  exact find?_update_found hq1 rfl

/-- Claim C5 witness: the overwrite theorem applied at a concrete store
with one pending question, answered twice with different texts. -/
theorem answer_question_overwrites_witness :
    (dbQ.questions.find? (fun x => x.id == 7)
       = some ⟨7, 1, 2, "why?", none, false, 3, none⟩ ∧
     dbQ.users.find? (fun u =>
       u.id == (⟨7, 1, 2, "why?", none, false, 3, none⟩ : Question).leaderId)
       = some leaderL) ∧
    (∃ q1 db1 q2 db2,
      answer_question dbQ 7 "first answer" 10 = (Except.ok q1, db1) ∧
      answer_question db1 7 "second answer" 20 = (Except.ok q2, db2) ∧
      q2.answerText = some "second answer" ∧ q2.answered = true ∧
      q2.answeredAt = some 20 ∧
      q2.id = (⟨7, 1, 2, "why?", none, false, 3, none⟩ : Question).id ∧
      q2.questionText
        = (⟨7, 1, 2, "why?", none, false, 3, none⟩ : Question).questionText ∧
      db2.questions.find? (fun x => x.id == 7) = some q2) :=
  ⟨⟨rfl, rfl⟩,
   answer_question_overwrites dbQ 7 "first answer" "second answer" 10 20
     ⟨7, 1, 2, "why?", none, false, 3, none⟩ leaderL rfl rfl⟩

/-- Claim C10: every successful `answer_question` call appends one
`question_answered` notification for the question's worshiper, including
a repeat call on an already-answered question — two calls produce two
notification rows. -/
theorem answer_question_notifies_each_time (db : DB) (qid : Nat)
    (t1 t2 : String) (n1 n2 : Nat) (q : Question) (ld : User)
    (hq : db.questions.find? (fun x => x.id == qid) = some q)
    (hl : db.users.find? (fun u => u.id == q.leaderId) = some ld) :
    ∃ q1 db1 q2 db2,
      answer_question db qid t1 n1 = (Except.ok q1, db1) ∧
      countQuestionAnsweredNotifs db1 q.worshiperId
        = countQuestionAnsweredNotifs db q.worshiperId + 1 ∧
      answer_question db1 qid t2 n2 = (Except.ok q2, db2) ∧
      countQuestionAnsweredNotifs db2 q.worshiperId
        = countQuestionAnsweredNotifs db q.worshiperId + 2 := by
  have e1 := answer_question_eq db qid t1 n1 q ld hq hl
  let q1 : Question := { q with answerText := some t1, answered := true,
                                answeredAt := some n1 }
  let db1 : DB := { db with
    questions := db.questions.map (fun x => if x.id == qid then q1 else x),
    notifications := db.notifications ++
      [⟨q.worshiperId, "question_answered",
        ld.name ++ " answered your question",
        some "question", some q.id, false⟩] }
  have hq1 : db1.questions.find? (fun x => x.id == qid) = some q1 :=
    find?_update_found hq rfl
  have hl1 : db1.users.find? (fun u => u.id == q1.leaderId) = some ld := hl
  have e2 := answer_question_eq db1 qid t2 n2 q1 ld hq1 hl1
  refine ⟨q1, db1, { q1 with answerText := some t2, answered := true,
                             answeredAt := some n2 }, _,
    e1, ?_, e2, ?_⟩
  · show (db.notifications ++
      [(⟨q.worshiperId, "question_answered",
         ld.name ++ " answered your question",
         some "question", some q.id, false⟩ : Notification)]).countP
        (fun n => n.ntype == "question_answered" && n.userId == q.worshiperId)
      = countQuestionAnsweredNotifs db q.worshiperId + 1
    unfold countQuestionAnsweredNotifs
    rw [List.countP_append]
    simp
  · show ((db.notifications ++
      [(⟨q.worshiperId, "question_answered",
         ld.name ++ " answered your question",
         some "question", some q.id, false⟩ : Notification)]) ++
      [(⟨q1.worshiperId, "question_answered",
         ld.name ++ " answered your question",
         some "question", some q1.id, false⟩ : Notification)]).countP
        (fun n => n.ntype == "question_answered" && n.userId == q.worshiperId)
      = countQuestionAnsweredNotifs db q.worshiperId + 2
    unfold countQuestionAnsweredNotifs
    rw [List.countP_append, List.countP_append]
    simp [show q1.worshiperId = q.worshiperId from rfl]

/-- Claim C10 witness: the double-notification theorem applied at a
concrete store with one pending question answered twice. -/
theorem answer_question_notifies_each_time_witness :
    (dbQ.questions.find? (fun x => x.id == 7)
       = some ⟨7, 1, 2, "why?", none, false, 3, none⟩ ∧
     dbQ.users.find? (fun u =>
       u.id == (⟨7, 1, 2, "why?", none, false, 3, none⟩ : Question).leaderId)
       = some leaderL) ∧
    (∃ q1 db1 q2 db2,
      answer_question dbQ 7 "reply one" 11 = (Except.ok q1, db1) ∧
      countQuestionAnsweredNotifs db1
          (⟨7, 1, 2, "why?", none, false, 3, none⟩ : Question).worshiperId
        = countQuestionAnsweredNotifs dbQ
            (⟨7, 1, 2, "why?", none, false, 3, none⟩ : Question).worshiperId
          + 1 ∧
      answer_question db1 7 "reply two" 22 = (Except.ok q2, db2) ∧
      countQuestionAnsweredNotifs db2
          (⟨7, 1, 2, "why?", none, false, 3, none⟩ : Question).worshiperId
        = countQuestionAnsweredNotifs dbQ
            (⟨7, 1, 2, "why?", none, false, 3, none⟩ : Question).worshiperId
          + 2) :=
  ⟨⟨rfl, rfl⟩,
   answer_question_notifies_each_time dbQ 7 "reply one" "reply two" 11 22
     ⟨7, 1, 2, "why?", none, false, 3, none⟩ leaderL rfl rfl⟩


/-- Full evaluation of the fan-out loop of `create_post`: it appends one
`new_post` notification row per follower, in order, and touches nothing
else. -/
theorem notify_followers_eq (followers : List Follow) (db : DB)
    (leader_name : String) (post_id : Nat) :
    notify_followers db followers leader_name post_id =
      { db with
        notifications := db.notifications ++
          followers.map (new_post_notification leader_name post_id) } := by
  induction followers generalizing db with
  | nil =>
      show db = { db with notifications := db.notifications ++ [] }
      rw [List.append_nil]
  | cons f t ih =>
      show notify_followers
          ((create_notification db f.worshiperId "new_post"
            (leader_name ++ " shared new spiritual content")
            (some "post") (some post_id)).2) t leader_name post_id = _
      rw [ih]
      show ({ db with
              notifications := (db.notifications ++
                  [new_post_notification leader_name post_id f]) ++
                t.map (new_post_notification leader_name post_id) } : DB) = _
      rw [List.append_assoc]
      rfl

/-- An unpublished post never appears on any page of the explore feed. -/
theorem not_mem_explore_feed_of_unpublished (db : DB) (p : Post)
    (hp : p.isPublished = false) (page page_size : Nat) :
    p ∉ get_explore_feed db page page_size := by
  intro hmem
  simp only [get_explore_feed] at hmem
  have h1 : p ∈ (db.posts.filter (explorePostFilter db)).insertionSort
      (fun a b => b.createdAt ≤ a.createdAt) :=
    List.drop_subset _ _ (List.take_subset _ _ hmem)
  have h2 : p ∈ db.posts.filter (explorePostFilter db) :=
    (List.perm_insertionSort _ _).mem_iff.mp h1
  have h3 := (List.mem_filter.mp h2).2
  simp [explorePostFilter, hp] at h3

/-- Full evaluation of `create_post` when the post is scheduled strictly
in the future: the row is inserted unpublished and nothing else happens. -/
theorem create_post_eq_scheduled (db : DB) (lid : Nat)
    (data : CreatePostRequest) (now t : Nat)
    (hs : data.scheduledAt = some t) (ht : now < t) :
    create_post db lid data now =
      (Except.ok ⟨db.nextPostId, lid, data.contentText, data.scheduledAt,
         false, true, now⟩,
       { db with
         posts := db.posts ++ [⟨db.nextPostId, lid, data.contentText,
           data.scheduledAt, false, true, now⟩],
         nextPostId := db.nextPostId + 1 }) := by
  unfold create_post
  rw [hs]
  dsimp only
  rw [if_neg (by simp [ht])]
  simp only [decide_eq_true ht, Bool.not_true]

/-- Full evaluation of `create_post` when the post publishes immediately
(no scheduledAt, or scheduledAt not in the future) and the authoring
leader row exists: the row is inserted published and one `new_post`
notification is created per follower. -/
theorem create_post_eq_published (db : DB) (lid : Nat)
    (data : CreatePostRequest) (now : Nat) (ld : User)
    (hs : ∀ t, data.scheduledAt = some t → ¬now < t)
    (hl : db.users.find? (fun u => u.id == lid) = some ld) :
    create_post db lid data now =
      (Except.ok ⟨db.nextPostId, lid, data.contentText, data.scheduledAt,
         true, true, now⟩,
       notify_followers
         { db with
           posts := db.posts ++ [⟨db.nextPostId, lid, data.contentText,
             data.scheduledAt, true, true, now⟩],
           nextPostId := db.nextPostId + 1 }
         (get_followers_of db lid) ld.name db.nextPostId) := by
  unfold create_post
  cases hs0 : data.scheduledAt with
  | none =>
      dsimp only
      rw [if_pos rfl, hl]
      rfl
  | some t =>
      have ht := hs t hs0
      dsimp only
      rw [if_pos (by simp [ht])]
      rw [hl]
      simp only [decide_eq_false ht, Bool.not_false]
      rfl

/-- Claim C6: at creation time the post's isPublished is false iff its
scheduledAt is present and strictly in the future, and a post created in
the scheduled (unpublished) state is excluded from every page of the
explore feed, which serves only published active posts. -/
theorem create_post_scheduling (db : DB) (lid : Nat)
    (data : CreatePostRequest) (now : Nat) (ld : User)
    (hl : db.users.find? (fun u => u.id == lid) = some ld) :
    ∃ p db',
      create_post db lid data now = (Except.ok p, db') ∧
      db'.posts = db.posts ++ [p] ∧
      p.scheduledAt = data.scheduledAt ∧
      (p.isPublished = false ↔ ∃ t, data.scheduledAt = some t ∧ now < t) ∧
      (p.isPublished = false →
        ∀ page page_size, p ∉ get_explore_feed db' page page_size) := by
  by_cases hf : ∃ t, data.scheduledAt = some t ∧ now < t
  · obtain ⟨t, hs, ht⟩ := hf
    refine ⟨_, _, create_post_eq_scheduled db lid data now t hs ht,
      rfl, rfl, ?_, ?_⟩
    · exact ⟨fun _ => ⟨t, hs, ht⟩, fun _ => rfl⟩
    · intro _ page page_size
      exact not_mem_explore_feed_of_unpublished _ _ rfl page page_size
  · have hs : ∀ t, data.scheduledAt = some t → ¬now < t := by
      intro t hst hnt
      exact hf ⟨t, hst, hnt⟩
    refine ⟨_, _, create_post_eq_published db lid data now ld hs hl,
      ?_, rfl, ?_, ?_⟩
    · rw [notify_followers_eq]
    · exact ⟨fun h => absurd h (by simp), fun h => absurd h hf⟩
    · intro h
      exact absurd h (by simp)

/-- Claim C6 witness: the scheduling theorem applied at a concrete store,
creating a post scheduled for time 99 at time 5. -/
theorem create_post_scheduling_witness :
    (dbF.users.find? (fun u => u.id == 2) = some leaderL) ∧
    (∃ p db',
      create_post dbF 2 ⟨"soon", some 99⟩ 5 = (Except.ok p, db') ∧
      db'.posts = dbF.posts ++ [p] ∧
      p.scheduledAt = (⟨"soon", some 99⟩ : CreatePostRequest).scheduledAt ∧
      (p.isPublished = false ↔
        ∃ t, (⟨"soon", some 99⟩ : CreatePostRequest).scheduledAt = some t ∧
          5 < t) ∧
      (p.isPublished = false →
        ∀ page page_size, p ∉ get_explore_feed db' page page_size)) :=
  ⟨rfl, create_post_scheduling dbF 2 ⟨"soon", some 99⟩ 5 leaderL rfl⟩

/-- Claim C9: when `create_post` publishes immediately it synchronously
appends one `new_post` notification per current follower of the authoring
leader, each referencing the new post's id; when the post is created in
the scheduled state, no notification is created at all. -/
theorem create_post_notifications (db : DB) (lid : Nat)
    (data : CreatePostRequest) (now : Nat) (ld : User)
    (hl : db.users.find? (fun u => u.id == lid) = some ld) :
    ∃ p db',
      create_post db lid data now = (Except.ok p, db') ∧
      (p.isPublished = true →
        db'.notifications = db.notifications ++
          (get_followers_of db lid).map (new_post_notification ld.name p.id)) ∧
      (p.isPublished = false → db'.notifications = db.notifications) := by
  by_cases hf : ∃ t, data.scheduledAt = some t ∧ now < t
  · obtain ⟨t, hs, ht⟩ := hf
    refine ⟨_, _, create_post_eq_scheduled db lid data now t hs ht, ?_, ?_⟩
    · intro h
      exact absurd h (by simp)
    · intro _
      rfl
  · have hs : ∀ t, data.scheduledAt = some t → ¬now < t := by
      intro t hst hnt
      exact hf ⟨t, hst, hnt⟩
    refine ⟨_, _, create_post_eq_published db lid data now ld hs hl, ?_, ?_⟩
    · intro _
      rw [notify_followers_eq]
    · intro h
      exact absurd h (by simp)

/-- Claim C9 witness: the fan-out theorem applied at a concrete store
where leader 2 has one follower and publishes immediately. -/
theorem create_post_notifications_witness :
    (dbF.users.find? (fun u => u.id == 2) = some leaderL) ∧
    (∃ p db',
      create_post dbF 2 ⟨"good news", none⟩ 5 = (Except.ok p, db') ∧
      (p.isPublished = true →
        db'.notifications = dbF.notifications ++
          (get_followers_of dbF 2).map
            (new_post_notification leaderL.name p.id)) ∧
      (p.isPublished = false → db'.notifications = dbF.notifications)) :=
  ⟨rfl, create_post_notifications dbF 2 ⟨"good news", none⟩ 5 leaderL rfl⟩

/-- A list of length at most one is empty or a singleton. -/
theorem length_le_one_cases {α : Type} {l : List α} (h : l.length ≤ 1) :
    l = [] ∨ ∃ a, l = [a] := by
  cases l with
  | nil => exact Or.inl rfl
  | cons a t =>
      cases t with
      | nil => exact Or.inr ⟨a, rfl⟩
      | cons b t' => simp at h

/-- Erasing the unique row matched by a filter empties that filter. -/
theorem filter_erase_of_filter_eq_singleton {α : Type} [DecidableEq α]
    (p : α → Bool) (l : List α) (x : α) (h : l.filter p = [x]) :
    (l.erase x).filter p = [] := by
  induction l with
  | nil => simp at h
  | cons a t ih =>
      by_cases hp : p a = true
      · rw [List.filter_cons_of_pos hp] at h
        injection h with h1 h2
        subst h1
        rw [List.erase_cons_head]
        exact h2
      · rw [List.filter_cons_of_neg hp] at h
        have hax : ¬(a == x) = true := by
          intro hc
          have : a = x := by simpa using hc
          subst this
          have hxmem : a ∈ t.filter p := by
            rw [h]
            exact List.mem_singleton_self a
          exact hp (List.mem_filter.mp hxmem).2
        rw [List.erase_cons_tail hax, List.filter_cons_of_neg hp]
        exact ih h

/-- Claim C7 counterexample: when the (postId, userId) pair is already
liked at baseline, the sequence like, like, unlike, unlike removes that
like, so likeCount as computed by `get_post_engagement_stats` drops from
1 to 0 instead of returning to its value before the sequence. -/
theorem like_sequence_count_changes_when_already_liked :
    get_post_engagement_stats dbLiked 1 none
      = Except.ok ⟨1, 0, false, false⟩ ∧
    get_post_engagement_stats
      (unlike_post (unlike_post
        (like_post (like_post dbLiked 1 1).2 1 1).2 1 1).2 1 1).2 1 none
      = Except.ok ⟨0, 0, false, false⟩ := by
  decide

/-- Claim C7 (amended): for every store whose PostLike table satisfies
the composite-key constraint (at most one row per pair), the sequence
like, like, unlike, unlike leaves zero PostLike rows for the pair, the
repeated like and the repeated unlike are each no-ops, and — when the
pair had no PostLike row at baseline — the post's likeCount as computed
by `get_post_engagement_stats` is unchanged from its baseline value. -/
theorem like_like_unlike_unlike (db : DB) (p u : Nat)
    (hinv : (db.postLikes.filter (likeRowFilter p u)).length ≤ 1) :
    let s1 := like_post db p u
    let s2 := like_post s1.2 p u
    let s3 := unlike_post s2.2 p u
    let s4 := unlike_post s3.2 p u
    s4.2.postLikes.filter (likeRowFilter p u) = [] ∧
    s2 = (Except.ok "Post already liked", s1.2) ∧
    s4 = (Except.ok "Post not liked", s3.2) ∧
    (db.postLikes.filter (likeRowFilter p u) = [] →
      get_post_engagement_stats s4.2 p none
        = get_post_engagement_stats db p none) := by
  intro s1 s2 s3 s4
  rcases length_le_one_cases hinv with hnil | ⟨x, hx⟩
  · have e1 : s1 = (Except.ok "Post liked",
        { db with postLikes := db.postLikes ++ [⟨p, u⟩] }) := by
      show like_post db p u = _
      unfold like_post
      rw [hnil]
      rfl
    have h12 : s1.2.postLikes = db.postLikes ++ [(⟨p, u⟩ : PostLike)] := by
      rw [e1]
    have hfilter1 : s1.2.postLikes.filter (likeRowFilter p u)
        = [(⟨p, u⟩ : PostLike)] := by
      rw [h12, List.filter_append, hnil]
      simp [likeRowFilter]
    have e2 : s2 = (Except.ok "Post already liked", s1.2) := by
      show like_post s1.2 p u = _
      unfold like_post
      rw [hfilter1]
      rfl
    have hnotmem : (⟨p, u⟩ : PostLike) ∉ db.postLikes := by
      intro hmem
      have hmf : (⟨p, u⟩ : PostLike) ∈ db.postLikes.filter (likeRowFilter p u) :=
        List.mem_filter.mpr ⟨hmem, by simp [likeRowFilter]⟩
      rw [hnil] at hmf
      simp at hmf
    have herase : (db.postLikes ++ [(⟨p, u⟩ : PostLike)]).erase ⟨p, u⟩
        = db.postLikes := by
      rw [List.erase_append_right _ hnotmem]
      simp
    have e3 : s3 = (Except.ok "Post unliked", db) := by
      show unlike_post s2.2 p u = _
      have h22 : s2.2 = s1.2 := by rw [e2]
      rw [h22]
      unfold unlike_post
      rw [hfilter1]
      show ((Except.ok "Post unliked" : Except Err String),
        ({ s1.2 with
           postLikes := s1.2.postLikes.erase (⟨p, u⟩ : PostLike) } : DB))
        = (Except.ok "Post unliked", db)
      rw [e1]
      show ((Except.ok "Post unliked" : Except Err String),
        ({ db with
           postLikes :=
             (db.postLikes ++ [(⟨p, u⟩ : PostLike)]).erase ⟨p, u⟩ } : DB))
        = (Except.ok "Post unliked",
           ({ db with postLikes := db.postLikes } : DB))
      rw [herase]
    have h32 : s3.2 = db := by rw [e3]
    have e4 : s4 = (Except.ok "Post not liked", s3.2) := by
      show unlike_post s3.2 p u = _
      rw [h32]
      unfold unlike_post
      rw [hnil]
      rfl
    have h42 : s4.2 = db := by rw [e4, h32]
    refine ⟨?_, e2, e4, ?_⟩
    · rw [h42, hnil]
    · intro _
      rw [h42]
  · have hxmem : x ∈ db.postLikes.filter (likeRowFilter p u) := by
      rw [hx]
      exact List.mem_singleton_self x
    have e1 : s1 = (Except.ok "Post already liked", db) := by
      show like_post db p u = _
      unfold like_post
      rw [hx]
      rfl
    have h12 : s1.2 = db := by rw [e1]
    have e2 : s2 = (Except.ok "Post already liked", s1.2) := by
      show like_post s1.2 p u = _
      rw [h12]
      unfold like_post
      rw [hx]
      rfl
    have h22 : s2.2 = db := by rw [e2, h12]
    have e3 : s3 = (Except.ok "Post unliked",
        { db with postLikes := db.postLikes.erase x }) := by
      show unlike_post s2.2 p u = _
      rw [h22]
      unfold unlike_post
      rw [hx]
      rfl
    have h32 : s3.2 = { db with postLikes := db.postLikes.erase x } := by
      rw [e3]
    have hfe : (db.postLikes.erase x).filter (likeRowFilter p u) = [] :=
      filter_erase_of_filter_eq_singleton _ _ _ hx
    have e4 : s4 = (Except.ok "Post not liked", s3.2) := by
      show unlike_post s3.2 p u = _
      rw [h32]
      unfold unlike_post
      dsimp only
      rw [hfe]
      rfl
    have h42 : s4.2.postLikes = db.postLikes.erase x := by
      rw [e4, h32]
    refine ⟨?_, e2, e4, ?_⟩
    · rw [h42, hfe]
    · intro habs
      rw [hx] at habs
      simp at habs

/-- Claim C7 witness: the amended sequence theorem applied at the empty
store (no baseline like for the pair). -/
theorem like_like_unlike_unlike_witness :
    ((emptyDB.postLikes.filter (likeRowFilter 1 1)).length ≤ 1) ∧
    (let s1 := like_post emptyDB 1 1
     let s2 := like_post s1.2 1 1
     let s3 := unlike_post s2.2 1 1
     let s4 := unlike_post s3.2 1 1
     s4.2.postLikes.filter (likeRowFilter 1 1) = [] ∧
     s2 = (Except.ok "Post already liked", s1.2) ∧
     s4 = (Except.ok "Post not liked", s3.2) ∧
     (emptyDB.postLikes.filter (likeRowFilter 1 1) = [] →
       get_post_engagement_stats s4.2 1 none
         = get_post_engagement_stats emptyDB 1 none)) :=
  ⟨by decide, like_like_unlike_unlike emptyDB 1 1 (by decide)⟩

/-- Claim C8: `get_leader_questions` partitions all of the leader's
questions into pending (answered = false) and answered (answered = true);
the two groups together are a permutation of all questions addressed to
that leader, and each group is ordered descending by creation time. -/
theorem leader_questions_partition (db : DB) (lid : Nat) :
    (∀ q ∈ (get_leader_questions db lid).1, q.answered = false) ∧
    (∀ q ∈ (get_leader_questions db lid).2, q.answered = true) ∧
    ((get_leader_questions db lid).1 ++ (get_leader_questions db lid).2).Perm
      (db.questions.filter (fun q => q.leaderId == lid)) ∧
    List.Sorted (fun a b => b.createdAt ≤ a.createdAt)
      (get_leader_questions db lid).1 ∧
    List.Sorted (fun a b => b.createdAt ≤ a.createdAt)
      (get_leader_questions db lid).2 := by
  have hsorted : List.Sorted (fun a b => b.createdAt ≤ a.createdAt)
      ((db.questions.filter (fun q => q.leaderId == lid)).insertionSort
        (fun a b => b.createdAt ≤ a.createdAt)) :=
    List.sorted_insertionSort _ _
  have hperm := List.perm_insertionSort
    (fun a b : Question => b.createdAt ≤ a.createdAt)
    (db.questions.filter (fun q => q.leaderId == lid))
  unfold get_leader_questions
  dsimp only
  refine ⟨?_, ?_, ?_, ?_, ?_⟩
  · intro q hq
    have h := (List.mem_filter.mp hq).2
    simpa using h
  · intro q hq
    exact (List.mem_filter.mp hq).2
  · refine List.Perm.trans ?_ hperm
    have h3 := List.filter_append_perm (fun q : Question => !q.answered)
      ((db.questions.filter (fun q => q.leaderId == lid)).insertionSort
        (fun a b => b.createdAt ≤ a.createdAt))
    simpa using h3
  · exact List.Pairwise.sublist (List.filter_sublist _) hsorted
  · exact List.Pairwise.sublist (List.filter_sublist _) hsorted

/-- Claim C8 witness: the partition theorem applied at a concrete store
with one pending question for leader 2. -/
theorem leader_questions_partition_witness :
    (∀ q ∈ (get_leader_questions dbQ 2).1, q.answered = false) ∧
    (∀ q ∈ (get_leader_questions dbQ 2).2, q.answered = true) ∧
    ((get_leader_questions dbQ 2).1 ++ (get_leader_questions dbQ 2).2).Perm
      (dbQ.questions.filter (fun q => q.leaderId == 2)) ∧
    List.Sorted (fun a b => b.createdAt ≤ a.createdAt)
      (get_leader_questions dbQ 2).1 ∧
    List.Sorted (fun a b => b.createdAt ≤ a.createdAt)
      (get_leader_questions dbQ 2).2 :=
  leader_questions_partition dbQ 2
